import Mathlib

/-!
Verification development for the AUES Squarespace sync service
(`src/index.ts`, two-task variant: orders on a fixed interval, members on an
adaptive interval).  The TypeScript source is shallowly embedded below:

* JavaScript runtime values that matter to the program (JSON data, numbers
  with NaN) are modelled by `JSNum` / `JSValue`;
* the externally determined outcome of one HTTP try is a `TryOutcome`;
* `postWithRetry` is embedded as a pure function from the per-attempt
  outcomes, returning the `SyncResult`, the final `consecutiveFailures.count`,
  and a trace of observable events (requests sent, log lines, backoff sleeps);
* the adaptive rescheduling computation of `syncMembers` is embedded as
  `nextMembersInterval`;
* the startup environment checks and the process lifecycle handlers are
  embedded as `mainStartup`, `shutdown` and the exit-code constants.
-/

namespace AUESSync

/-- A JavaScript number: either NaN or a finite value (modelled as a
rational; the program never relies on binary floating-point rounding). -/
inductive JSNum where
  | nan
  | fin (q : ℚ)
deriving DecidableEq

/-- The JavaScript comparison `n > 0` (false on NaN). -/
def JSNum.gtZero : JSNum → Bool
  | .nan => false
  | .fin q => decide (0 < q)

/-- JavaScript multiplication on numbers; NaN is absorbing. -/
def JSNum.mul : JSNum → JSNum → JSNum
  | .nan, _ => .nan
  | .fin _, .nan => .nan
  | .fin a, .fin b => .fin (a * b)

/-- A JavaScript value as it can appear in a parsed JSON response (plus
`undefined`, which property access on a missing field produces). -/
inductive JSValue where
  | null
  | undefined
  | bool (b : Bool)
  | num (n : JSNum)
  | str (s : String)
  | obj (fields : List (String × JSValue))

/-- JavaScript truthiness of a value, as used by `result.ok && result.data`. -/
def JSValue.truthy : JSValue → Bool
  | .null => false
  | .undefined => false
  | .bool b => b
  | .num .nan => false
  | .num (.fin q) => decide (q ≠ 0)
  | .str s => decide (s ≠ "")
  | .obj _ => true

/-- Property access `v.key`: on an object, the value of the field (or `undefined`
when absent); on a primitive, `undefined`.  The guard in `syncMembers`
ensures this is never applied to `null`/`undefined`. -/
def JSValue.getField : JSValue → String → JSValue
  | .obj fields, key =>
    match fields.lookup key with
    | some v => v
    | none => .undefined
  | _, _ => .undefined

/-- Constants of src/index.ts (lines 12-16). -/
def MAX_RETRIES : Nat := 3

def FETCH_TIMEOUT_MS : Nat := 30000

def CONSECUTIVE_FAILURE_THRESHOLD : Nat := 5

def ORDERS_INTERVAL : ℚ := 1000 * 60 * 10

def DEFAULT_MEMBERS_INTERVAL : ℚ := 1000 * 60 * 5

/-- The non-retryable status set of src/index.ts line 38. -/
def NON_RETRYABLE_STATUSES : List Nat := [400, 401, 403, 429]

/-- The WHATWG fetch `Response.ok` predicate: status in the range 200-299. -/
def respOk (status : Nat) : Bool := 200 ≤ status && status ≤ 299

/-- The contribution of the environment to one HTTP try inside `postWithRetry`:
either `fetch` itself throws (network error, or the 30 s `AbortSignal`
timeout), or a response arrives with some `status`, whose body then either
parses as JSON (`some v`) or makes `response.json()` throw (`none`; this
covers an empty body and malformed JSON).  For a non-ok response the body is
never parsed, so its field is irrelevant there. -/
inductive TryOutcome where
  | fetchError
  | response (status : Nat) (body : Option JSValue)

/-- The observable events `postWithRetry` produces: one `request` per fetch
attempt, the error-log lines, and the backoff sleeps (milliseconds). -/
inductive Event where
  | request
  | logNonRetryable (status : Nat)
  | logRetry (attempt : Nat)
  | sleep (ms : Nat)
  | logFinalFailure
  | logEscalation (count : Nat)
deriving DecidableEq

/-- The result type of `postWithRetry` (src/index.ts lines 40-43); a missing
`data` field is the JavaScript value `undefined`. -/
structure SyncResult where
  ok : Bool
  data : JSValue := .undefined

/-- The retry loop of `postWithRetry` (src/index.ts lines 45-90).  `attempt`
is the loop counter (starting at 1); `fuel` is the number of iterations the
loop may still execute (`MAX_RETRIES - attempt + 1` at entry); `count` is the
current `consecutiveFailures.count`.  `outcomes k` is what the network does
on attempt `k`.  Returns the `SyncResult`, the final counter value, and the
event trace.  The `fuel = 0` case is the trailing `return { ok: false }` of
line 89, reached only if the loop exits without returning. -/
def postWithRetryGo (outcomes : Nat → TryOutcome) :
    Nat → Nat → Nat → SyncResult × Nat × List Event
  | _, 0, count => ({ ok := false }, count, [])
  | attempt, fuel + 1, count =>
    -- the catch block, lines 70-87, entered with the counter value `c`
    -- current at the moment the exception was thrown
    let caught : Nat → SyncResult × Nat × List Event := fun c =>
      if attempt = MAX_RETRIES then
        ({ ok := false }, c + 1,
          Event.logFinalFailure ::
            (if CONSECUTIVE_FAILURE_THRESHOLD ≤ c + 1 then
              [Event.logEscalation (c + 1)]
            else []))
      else
        let rest := postWithRetryGo outcomes (attempt + 1) fuel c
        (rest.1, rest.2.1,
          Event.logRetry attempt :: Event.sleep (2 ^ attempt * 1000) :: rest.2.2)
    -- the try block, lines 47-69
    let step : SyncResult × Nat × List Event :=
      match outcomes attempt with
      | .fetchError => caught count
      | .response status body =>
        if respOk status then
          -- line 67: the counter is reset to 0 BEFORE response.json() runs,
          -- so a body-parse exception reaches the catch block with count 0
          match body with
          | some data => ({ ok := true, data := data }, 0, [])
          | none => caught 0
        else if NON_RETRYABLE_STATUSES.contains status then
          ({ ok := false }, count + 1, [Event.logNonRetryable status])
        else
          caught count
    (step.1, step.2.1, Event.request :: step.2.2)

/-- The function `postWithRetry` (src/index.ts line 45): run the loop from
attempt 1 with `MAX_RETRIES` iterations available. -/
def postWithRetry (outcomes : Nat → TryOutcome) (count : Nat) :
    SyncResult × Nat × List Event :=
  postWithRetryGo outcomes 1 MAX_RETRIES count

/-- Number of HTTP requests recorded in a trace. -/
def numRequests : List Event → Nat
  | [] => 0
  | e :: evs => (if e = Event.request then 1 else 0) + numRequests evs

/-- A try outcome on which the loop body neither returns nor succeeds, i.e.
control reaches the backoff-or-terminal catch logic and, when attempts
remain, continues to the next attempt: a thrown fetch, a failing status
outside the non-retryable set, or an ok response whose body fails to parse. -/
def tryContinues : TryOutcome → Bool
  | .fetchError => true
  | .response s body =>
    if respOk s then body.isNone else !(NON_RETRYABLE_STATUSES.contains s)

/-- A retryable failing outcome in the sense of the spec: a network
error/timeout, or a failing status outside the non-retryable set (this
excludes the ok-status-with-unparsable-body case). -/
def retryableFail : TryOutcome → Bool
  | .fetchError => true
  | .response s _ => !(respOk s) && !(NON_RETRYABLE_STATUSES.contains s)

/-- An ok-status response whose body fails to parse: the only try shape that
mutates the counter (resetting it to 0) without ending the attempt
sequence. -/
def okParseFail : TryOutcome → Bool
  | .response s none => respOk s
  | _ => false

/-- The counter value after the loop body processes a continuing outcome: an
ok-status response has already reset it to 0 (line 67) by the time its body
parse throws; every other continuing outcome leaves it unchanged. -/
def countAfterContinue : TryOutcome → Nat → Nat
  | .response s _, c => if respOk s then 0 else c
  | _, c => c

/-- The counter value after the first `k` tries of a sequence in which every
try continues. -/
def countAfterTries (outcomes : Nat → TryOutcome) (count : Nat) : Nat → Nat
  | 0 => count
  | k + 1 => countAfterContinue (outcomes (k + 1)) (countAfterTries outcomes count k)

/-- The next-delay computation of `syncMembers` (src/index.ts lines 113-127):
start from the default; when the attempt succeeded and its data is truthy and
carries a `nextCheckInSeconds` field of JavaScript type number that is
strictly greater than 0, use that value converted to milliseconds.  The
resulting delay is what `setTimeout(syncMembers, nextInterval)` is armed
with. -/
def nextMembersInterval (result : SyncResult) : JSNum :=
  let nextInterval := JSNum.fin DEFAULT_MEMBERS_INTERVAL
  if result.ok && result.data.truthy then
    match result.data.getField "nextCheckInSeconds" with
    | .num n => if n.gtZero then n.mul (.fin 1000) else nextInterval
    | _ => nextInterval
  else
    nextInterval

/-- The environment variables read at startup (src/index.ts lines 9-11);
`none` models an unset variable. -/
structure Config where
  cronSecret : Option String
  dashboardUrl : Option String
  membersUrl : Option String

/-- JavaScript falsiness of an environment variable: unset (`undefined`) or
set to the empty string. -/
def envFalsy : Option String → Bool
  | none => true
  | some s => decide (s = "")

def cronSecretMissingMsg : String :=
  "CRON_SECRET is not set. Please set it in the environment variables."

def dashboardUrlMissingMsg : String :=
  "DASHBOARD_URL is not set. Please set it in the environment variables."

def membersUrlMissingMsg : String :=
  "MEMBERS_URL is not set. Please set it in the environment variables."

/-- What the module-level code does before anything else: either the process
exits during the configuration checks (with an exit code and the logged
message), or the checks pass and both schedulers are armed.  The
`exitedAtStartup` constructor is reached strictly before any scheduler is
created or any `fetch` is issued, mirroring source order (checks at lines
20-33; schedulers at lines 104-105 and 129). -/
inductive StartupOutcome where
  | exitedAtStartup (code : Nat) (message : String)
  | running (ordersIntervalArmed : Bool) (membersTimerArmed : Bool)
deriving DecidableEq

/-- The startup environment checks of src/index.ts lines 20-33, in source
order: CRON_SECRET, then DASHBOARD_URL, then MEMBERS_URL; the first falsy
value logs its message and exits with code 1. -/
def mainStartup (c : Config) : StartupOutcome :=
  if envFalsy c.cronSecret then .exitedAtStartup 1 cronSecretMissingMsg
  else if envFalsy c.dashboardUrl then .exitedAtStartup 1 dashboardUrlMissingMsg
  else if envFalsy c.membersUrl then .exitedAtStartup 1 membersUrlMissingMsg
  else .running true true

/-- The observable effects of the `shutdown` handler (src/index.ts lines
134-139): log the received signal, clear the orders interval, clear the
members timeout, and exit. -/
structure ShutdownEffects where
  loggedSignal : String
  clearedOrdersInterval : Bool
  clearedMembersTimeout : Bool
  exitCode : Nat
deriving DecidableEq

/-- The `shutdown` handler, installed for SIGINT and SIGTERM (src/index.ts
lines 134-142). -/
def shutdown (signal : String) : ShutdownEffects :=
  { loggedSignal := signal
    clearedOrdersInterval := true
    clearedMembersTimeout := true
    exitCode := 0 }

/-- Exit code of the `unhandledRejection` handler (src/index.ts lines
144-147). -/
def unhandledRejectionExitCode : Nat := 1

/-- Exit code of the `uncaughtException` handler (src/index.ts lines
149-152). -/
def uncaughtExceptionExitCode : Nat := 1

/-! Helper lemmas describing one iteration of the retry loop, by the shape of
the shape of the outcome of the try. -/

lemma go_success (outcomes : Nat → TryOutcome) (attempt fuel count s : Nat)
    (j : JSValue) (ho : outcomes attempt = .response s (some j))
    (hok : respOk s = true) :
    postWithRetryGo outcomes attempt (fuel + 1) count =
      ({ ok := true, data := j }, 0, [Event.request]) := by
  simp [postWithRetryGo, ho, hok]

lemma go_nonretry (outcomes : Nat → TryOutcome) (attempt fuel count s : Nat)
    (body : Option JSValue) (ho : outcomes attempt = .response s body)
    (hok : respOk s = false) (hnr : NON_RETRYABLE_STATUSES.contains s = true) :
    postWithRetryGo outcomes attempt (fuel + 1) count =
      ({ ok := false }, count + 1, [Event.request, Event.logNonRetryable s]) := by
  have hmem : s ∈ NON_RETRYABLE_STATUSES := by simpa using hnr
  simp [postWithRetryGo, ho, hok, hmem]

lemma go_continue (outcomes : Nat → TryOutcome) (attempt fuel count : Nat)
    (hne : attempt ≠ MAX_RETRIES) (h : tryContinues (outcomes attempt) = true) :
    postWithRetryGo outcomes attempt (fuel + 1) count =
      ((postWithRetryGo outcomes (attempt + 1) fuel
          (countAfterContinue (outcomes attempt) count)).1,
       (postWithRetryGo outcomes (attempt + 1) fuel
          (countAfterContinue (outcomes attempt) count)).2.1,
       Event.request :: Event.logRetry attempt ::
         Event.sleep (2 ^ attempt * 1000) ::
         (postWithRetryGo outcomes (attempt + 1) fuel
            (countAfterContinue (outcomes attempt) count)).2.2) := by
  cases ho : outcomes attempt with
  | fetchError => simp [postWithRetryGo, ho, hne, countAfterContinue]
  | response s body =>
    rw [ho] at h
    cases body with
    | none =>
      by_cases hok : respOk s
      · simp [postWithRetryGo, ho, hne, hok, countAfterContinue]
      · have hmem : s ∉ NON_RETRYABLE_STATUSES := by
          have hnr : NON_RETRYABLE_STATUSES.contains s = false := by
            simpa [tryContinues, hok] using h
          simpa using hnr
        simp [postWithRetryGo, ho, hne, hok, hmem, countAfterContinue]
    | some j =>
      by_cases hok : respOk s
      · simp [tryContinues, hok] at h
      · have hmem : s ∉ NON_RETRYABLE_STATUSES := by
          have hnr : NON_RETRYABLE_STATUSES.contains s = false := by
            simpa [tryContinues, hok] using h
          simpa using hnr
        simp [postWithRetryGo, ho, hne, hok, hmem, countAfterContinue]

lemma go_caught_last (outcomes : Nat → TryOutcome) (fuel count : Nat)
    (h : tryContinues (outcomes MAX_RETRIES) = true) :
    postWithRetryGo outcomes MAX_RETRIES (fuel + 1) count =
      ({ ok := false }, countAfterContinue (outcomes MAX_RETRIES) count + 1,
        Event.request :: Event.logFinalFailure ::
          (if CONSECUTIVE_FAILURE_THRESHOLD ≤
              countAfterContinue (outcomes MAX_RETRIES) count + 1 then
            [Event.logEscalation
              (countAfterContinue (outcomes MAX_RETRIES) count + 1)]
          else [])) := by
  cases ho : outcomes MAX_RETRIES with
  | fetchError => simp [postWithRetryGo, ho, countAfterContinue]
  | response s body =>
    rw [ho] at h
    cases body with
    | none =>
      by_cases hok : respOk s
      · simp [postWithRetryGo, ho, hok, countAfterContinue]
      · have hmem : s ∉ NON_RETRYABLE_STATUSES := by
          have hnr : NON_RETRYABLE_STATUSES.contains s = false := by
            simpa [tryContinues, hok] using h
          simpa using hnr
        simp [postWithRetryGo, ho, hok, hmem, countAfterContinue]
    | some j =>
      by_cases hok : respOk s
      · simp [tryContinues, hok] at h
      · have hmem : s ∉ NON_RETRYABLE_STATUSES := by
          have hnr : NON_RETRYABLE_STATUSES.contains s = false := by
            simpa [tryContinues, hok] using h
          simpa using hnr
        simp [postWithRetryGo, ho, hok, hmem, countAfterContinue]

/-- Every try outcome is a parsed success, a non-retryable rejection, or a
continuing (caught) outcome. -/
lemma tryOutcome_trichotomy (o : TryOutcome) :
    (∃ s j, o = .response s (some j) ∧ respOk s = true) ∨
    (∃ s body, o = .response s body ∧ respOk s = false ∧
      NON_RETRYABLE_STATUSES.contains s = true) ∨
    tryContinues o = true := by
  cases o with
  | fetchError => right; right; rfl
  | response s body =>
    by_cases hok : respOk s
    · cases body with
      | some j => left; exact ⟨s, j, rfl, hok⟩
      | none => right; right; simp [tryContinues, hok]
    · by_cases hnr : NON_RETRYABLE_STATUSES.contains s = true
      · right; left
        exact ⟨s, body, rfl, by simp [hok], hnr⟩
      · right; right
        simp only [Bool.not_eq_true] at hnr
        have hmem : s ∉ NON_RETRYABLE_STATUSES := by simpa using hnr
        simp [tryContinues, hok, hmem]

lemma retryableFail_continues (o : TryOutcome) (h : retryableFail o = true) :
    tryContinues o = true := by
  cases o with
  | fetchError => rfl
  | response s body =>
    simp [retryableFail] at h
    simp [tryContinues, h.1, h.2]

lemma countAfterContinue_of_retryableFail (o : TryOutcome) (c : Nat)
    (h : retryableFail o = true) : countAfterContinue o c = c := by
  cases o with
  | fetchError => rfl
  | response s body =>
    simp [retryableFail] at h
    simp [countAfterContinue, h.1]

lemma countAfterContinue_of_not_reset (o : TryOutcome) (c : Nat)
    (hc : tryContinues o = true) (hp : okParseFail o = false) :
    countAfterContinue o c = c := by
  cases o with
  | fetchError => rfl
  | response s body =>
    cases body with
    | none =>
      have : respOk s = false := by simpa [okParseFail] using hp
      simp [countAfterContinue, this]
    | some j =>
      by_cases hok : respOk s
      · simp [tryContinues, hok] at hc
      · simp [countAfterContinue, hok]

/-- The complete trace of an attempt sequence in which all three tries end up
in the catch block: two backoff waits, then a terminal failure that
increments the then-current counter, with the escalated warning exactly when
the incremented counter reaches the threshold. -/
lemma postWithRetry_allContinue (outcomes : Nat → TryOutcome) (count : Nat)
    (h1 : tryContinues (outcomes 1) = true)
    (h2 : tryContinues (outcomes 2) = true)
    (h3 : tryContinues (outcomes 3) = true) :
    postWithRetry outcomes count =
      ({ ok := false }, countAfterTries outcomes count 3 + 1,
        [Event.request, Event.logRetry 1, Event.sleep 2000,
         Event.request, Event.logRetry 2, Event.sleep 4000,
         Event.request, Event.logFinalFailure] ++
          (if CONSECUTIVE_FAILURE_THRESHOLD ≤ countAfterTries outcomes count 3 + 1 then
            [Event.logEscalation (countAfterTries outcomes count 3 + 1)]
          else [])) := by
  have e1 := go_continue outcomes 1 2 count (by decide) h1
  have e2 := go_continue outcomes 2 1 (countAfterContinue (outcomes 1) count)
    (by decide) h2
  have e3 := go_caught_last outcomes 0
    (countAfterContinue (outcomes 2) (countAfterContinue (outcomes 1) count))
    (by simpa [MAX_RETRIES] using h3)
  norm_num [MAX_RETRIES] at e1 e2 e3
  rw [postWithRetry, show MAX_RETRIES = 3 from rfl, e1, e2, e3]
  simp [countAfterTries]

/-- The loop issues at most `fuel` requests. -/
lemma go_numRequests_le (outcomes : Nat → TryOutcome) :
    ∀ fuel attempt count,
      numRequests (postWithRetryGo outcomes attempt fuel count).2.2 ≤ fuel := by
  intro fuel
  induction fuel with
  | zero => intro a c; simp [postWithRetryGo, numRequests]
  | succ f ih =>
    intro a c
    rcases tryOutcome_trichotomy (outcomes a) with ⟨s, j, ho, hok⟩ |
      ⟨s, body, ho, hok, hnr⟩ | hc
    · rw [go_success outcomes a f c s j ho hok]
      simp [numRequests]
    · rw [go_nonretry outcomes a f c s body ho hok hnr]
      simp [numRequests]
    · by_cases ha : a = MAX_RETRIES
      · subst ha
        rw [go_caught_last outcomes f c hc]
        by_cases hth : CONSECUTIVE_FAILURE_THRESHOLD ≤
            countAfterContinue (outcomes MAX_RETRIES) c + 1 <;>
          simp [numRequests, hth]
      · rw [go_continue outcomes a f c ha hc]
        have h := ih (a + 1) (countAfterContinue (outcomes a) c)
        simp [numRequests]
        omega

/-- Counter correctness of a (suffix of an) attempt sequence containing no
ok-status try whose body fails to parse: success ends with the counter at 0,
failure ends with the counter incremented by exactly 1. -/
lemma go_count_correct (outcomes : Nat → TryOutcome) :
    ∀ fuel attempt count, attempt + fuel = MAX_RETRIES + 1 → 1 ≤ fuel →
      (∀ i, attempt ≤ i → i ≤ MAX_RETRIES → okParseFail (outcomes i) = false) →
      ((postWithRetryGo outcomes attempt fuel count).1.ok = true →
        (postWithRetryGo outcomes attempt fuel count).2.1 = 0) ∧
      ((postWithRetryGo outcomes attempt fuel count).1.ok = false →
        (postWithRetryGo outcomes attempt fuel count).2.1 = count + 1) := by
  have hM : MAX_RETRIES = 3 := rfl
  intro fuel
  induction fuel with
  | zero => intro a c _ h1; omega
  | succ f ih =>
    intro a c hsum _ hnp
    rcases tryOutcome_trichotomy (outcomes a) with ⟨s, j, ho, hok⟩ |
      ⟨s, body, ho, hok, hnr⟩ | hc
    · rw [go_success outcomes a f c s j ho hok]
      simp
    · rw [go_nonretry outcomes a f c s body ho hok hnr]
      simp
    · by_cases ha : a = MAX_RETRIES
      · subst ha
        rw [go_caught_last outcomes f c hc]
        have hres := countAfterContinue_of_not_reset (outcomes MAX_RETRIES) c hc
          (hnp MAX_RETRIES le_rfl le_rfl)
        simp [hres]
      · rw [go_continue outcomes a f c ha hc]
        have hres := countAfterContinue_of_not_reset (outcomes a) c hc
          (hnp a le_rfl (by omega))
        rw [hres]
        exact ih (a + 1) c (by omega) (by omega)
          (fun i hi1 hi2 => hnp i (by omega) hi2)

/-- C9: for every url/label (abstracted away: they do not influence control
flow), every initial failure-counter state and every sequence of per-try
outcomes, `postWithRetry` performs at most `MAX_RETRIES` (3) HTTP attempts
and terminates returning a `SyncResult`; the trailing `return { ok: false }`
(the `fuel = 0` case, entered at `attempt = MAX_RETRIES + 1`) makes the
function total even when the loop is exited without returning, yielding a
failure with the counter untouched. -/
theorem postWithRetry_total_and_bounded (outcomes : Nat → TryOutcome)
    (count : Nat) :
    numRequests (postWithRetry outcomes count).2.2 ≤ MAX_RETRIES ∧
    postWithRetryGo outcomes (MAX_RETRIES + 1) 0 count =
      ({ ok := false }, count, []) :=
  ⟨go_numRequests_le outcomes MAX_RETRIES 1 count, rfl⟩

/-- C5: a retryable failing outcome (network error, timeout, or a failing
status outside the non-retryable set) on attempt `k ≤ MAX_RETRIES - 1` of a
reached attempt is followed by a backoff sleep of `2^k` seconds (`2^k * 1000`
ms) before the next try; the same failing outcome on attempt `MAX_RETRIES`
produces the terminal trace with no further wait after the last request, the
counter incremented by exactly 1 from its current value, and a failure
result. -/
theorem backoff_waits_and_final_failure (outcomes : Nat → TryOutcome)
    (count : Nat) :
    (∀ k, 1 ≤ k → k ≤ MAX_RETRIES - 1 →
      (∀ i, 1 ≤ i → i < k → tryContinues (outcomes i) = true) →
      retryableFail (outcomes k) = true →
      Event.sleep (2 ^ k * 1000) ∈ (postWithRetry outcomes count).2.2) ∧
    ((∀ i, 1 ≤ i → i < MAX_RETRIES → tryContinues (outcomes i) = true) →
      retryableFail (outcomes MAX_RETRIES) = true →
      postWithRetry outcomes count =
        ({ ok := false }, countAfterTries outcomes count 2 + 1,
          [Event.request, Event.logRetry 1, Event.sleep 2000,
           Event.request, Event.logRetry 2, Event.sleep 4000,
           Event.request, Event.logFinalFailure] ++
            (if CONSECUTIVE_FAILURE_THRESHOLD ≤
                countAfterTries outcomes count 2 + 1 then
              [Event.logEscalation (countAfterTries outcomes count 2 + 1)]
            else []))) := by
  constructor
  · intro k hk1 hk2 hprev hfail
    have hk2' : k ≤ 2 := by simpa [MAX_RETRIES] using hk2
    interval_cases k
    · have h1 : tryContinues (outcomes 1) = true :=
        retryableFail_continues _ hfail
      have e1 := go_continue outcomes 1 2 count (by decide) h1
      norm_num at e1
      rw [postWithRetry, show MAX_RETRIES = 3 from rfl, e1]
      simp
    · have h1 := hprev 1 (by norm_num) (by norm_num)
      have h2 : tryContinues (outcomes 2) = true :=
        retryableFail_continues _ hfail
      have e1 := go_continue outcomes 1 2 count (by decide) h1
      have e2 := go_continue outcomes 2 1 (countAfterContinue (outcomes 1) count)
        (by decide) h2
      norm_num at e1 e2
      rw [postWithRetry, show MAX_RETRIES = 3 from rfl, e1, e2]
      simp
  · intro hprev hfail
    have hfail3 : retryableFail (outcomes 3) = true := by
      simpa [MAX_RETRIES] using hfail
    have h1 := hprev 1 (by norm_num) (by norm_num [MAX_RETRIES])
    have h2 := hprev 2 (by norm_num) (by norm_num [MAX_RETRIES])
    have h3 : tryContinues (outcomes 3) = true :=
      retryableFail_continues _ hfail3
    have htr := postWithRetry_allContinue outcomes count h1 h2 h3
    have hcount : countAfterTries outcomes count 3 =
        countAfterTries outcomes count 2 := by
      show countAfterContinue (outcomes 3) (countAfterTries outcomes count 2) = _
      exact countAfterContinue_of_retryableFail _ _ hfail3
    rw [htr, hcount]

/-- Witness for C5 at three consecutive network errors with counter 0: the
first backoff wait of 2 seconds is present, and the full run is the terminal
trace with two waits, three requests, counter 1 and a failure result. -/
theorem backoff_waits_and_final_failure_witness :
    Event.sleep 2000 ∈ (postWithRetry (fun _ => TryOutcome.fetchError) 0).2.2 ∧
    postWithRetry (fun _ => TryOutcome.fetchError) 0 =
      ({ ok := false }, 1,
        [Event.request, Event.logRetry 1, Event.sleep 2000,
         Event.request, Event.logRetry 2, Event.sleep 4000,
         Event.request, Event.logFinalFailure]) := by
  constructor
  · have h := (backoff_waits_and_final_failure (fun _ => TryOutcome.fetchError) 0).1
      1 (by norm_num) (by norm_num [MAX_RETRIES]) (by intro i h1 h2; omega) rfl
    simpa using h
  · have h := (backoff_waits_and_final_failure (fun _ => TryOutcome.fetchError) 0).2
      (by intro i h1 h2; rfl) rfl
    simpa [countAfterTries, countAfterContinue, CONSECUTIVE_FAILURE_THRESHOLD]
      using h

/-- C1 (amended): an escalated warning is emitted on a terminal failure
exactly when the attempt sequence ends through the catch path (all tries end
in the catch block, i.e. retries are exhausted) and the incremented counter
reaches the threshold; since the check is not edge-triggered it re-fires on
every subsequent such terminal failure (the statement holds for every
starting counter value).  A non-retryable rejection increments the counter
but emits no escalated warning, which is what forces the amendment. -/
theorem escalation_on_exhausted_failures (outcomes : Nat → TryOutcome)
    (count : Nat)
    (hcont : ∀ i, 1 ≤ i → i ≤ MAX_RETRIES → tryContinues (outcomes i) = true)
    (hth : CONSECUTIVE_FAILURE_THRESHOLD ≤ countAfterTries outcomes count 3 + 1) :
    (postWithRetry outcomes count).2.1 = countAfterTries outcomes count 3 + 1 ∧
    Event.logEscalation (countAfterTries outcomes count 3 + 1) ∈
      (postWithRetry outcomes count).2.2 := by
  rw [postWithRetry_allContinue outcomes count
    (hcont 1 (by norm_num) (by norm_num [MAX_RETRIES]))
    (hcont 2 (by norm_num) (by norm_num [MAX_RETRIES]))
    (hcont 3 (by norm_num) (by norm_num [MAX_RETRIES]))]
  simp [hth]

/-- Witness for the amended C1: with the counter at 4, a fourth-attempt
sequence of pure network errors ends at counter 5 and the escalated warning
is in the trace. -/
theorem escalation_on_exhausted_failures_witness :
    (postWithRetry (fun _ => TryOutcome.fetchError) 4).2.1 = 5 ∧
    Event.logEscalation 5 ∈ (postWithRetry (fun _ => TryOutcome.fetchError) 4).2.2 := by
  have h := escalation_on_exhausted_failures (fun _ => TryOutcome.fetchError) 4
    (by intro i h1 h2; rfl) (by decide)
  simpa [countAfterTries, countAfterContinue] using h

/-- Counterexample to C1 as stated: five consecutive non-retryable
rejections are terminal failures whose increments reach the threshold, yet
the fifth such failure (counter going from 4 to 5) emits only the ordinary
non-retryable failure log and no escalated warning. -/
theorem escalation_missing_on_nonretryable_cex :
    postWithRetry (fun _ => TryOutcome.response 400 none) 4 =
      ({ ok := false }, 5, [Event.request, Event.logNonRetryable 400]) ∧
    CONSECUTIVE_FAILURE_THRESHOLD ≤ 5 ∧
    Event.logEscalation 5 ∉
      (postWithRetry (fun _ => TryOutcome.response 400 none) 4).2.2 :=
  ⟨rfl, by norm_num [CONSECUTIVE_FAILURE_THRESHOLD], by decide⟩

/-- C3 (amended): the counter (a `Nat`, hence non-negative) ends at 0 when
the attempt sequence succeeds and at exactly its initial value plus 1 when
the sequence fails — provided no try of the sequence receives an ok-status
response whose body fails to parse.  Such a try resets the counter to 0
mid-sequence (the reset at line 67 happens before `response.json()` throws)
even though the sequence continues, which is what forces the amendment. -/
theorem counter_reset_and_increment (outcomes : Nat → TryOutcome) (count : Nat)
    (hnp : ∀ i, 1 ≤ i → i ≤ MAX_RETRIES → okParseFail (outcomes i) = false) :
    ((postWithRetry outcomes count).1.ok = true →
      (postWithRetry outcomes count).2.1 = 0) ∧
    ((postWithRetry outcomes count).1.ok = false →
      (postWithRetry outcomes count).2.1 = count + 1) :=
  go_count_correct outcomes MAX_RETRIES 1 count (Nat.add_comm 1 MAX_RETRIES)
    (by norm_num [MAX_RETRIES]) hnp

/-- Witness for the amended C3: three network errors starting from counter 2
end in failure with the counter at exactly 3. -/
theorem counter_reset_and_increment_witness :
    (postWithRetry (fun _ => TryOutcome.fetchError) 2).1.ok = false ∧
    (postWithRetry (fun _ => TryOutcome.fetchError) 2).2.1 = 2 + 1 :=
  ⟨rfl, (counter_reset_and_increment (fun _ => TryOutcome.fetchError) 2
    (by intro i h1 h2; rfl)).2 rfl⟩

/-- Counterexample to C3 as stated: starting from counter 3, an ok-status
response with an unparsable body on try 1 (an intermediate retry — the
sequence continues and finally exhausts) leaves the exhausted sequence at
counter 1, not 3 + 1: the counter was changed by an intermediate retry. -/
theorem counter_changed_midsequence_cex :
    postWithRetry
        (fun i => if i = 1 then TryOutcome.response 200 none else .fetchError) 3 =
      ({ ok := false }, 1,
        [Event.request, Event.logRetry 1, Event.sleep 2000,
         Event.request, Event.logRetry 2, Event.sleep 4000,
         Event.request, Event.logFinalFailure]) ∧
    (1 : Nat) ≠ 3 + 1 :=
  ⟨rfl, by norm_num⟩

/-- C2 (amended): if some reached try receives an ok-status response whose
body parses successfully, the counter is reset to 0, `Success` carrying the
parsed data is returned, and the retry loop terminates immediately — the
trace contains exactly `k` requests when the success happens on try `k`.  An
ok response whose body is absent or fails to parse is NOT tolerated: the
`response.json()` exception lands in the generic catch block (after the
counter has already been reset) and is handled as a retryable error, which is
what forces the amendment. -/
theorem success_resets_counter_and_stops (outcomes : Nat → TryOutcome)
    (count k : Nat) (hk1 : 1 ≤ k) (hk2 : k ≤ MAX_RETRIES)
    (hprev : ∀ i, 1 ≤ i → i < k → tryContinues (outcomes i) = true)
    (s : Nat) (j : JSValue) (ho : outcomes k = .response s (some j))
    (hok : respOk s = true) :
    ∃ evs, postWithRetry outcomes count = ({ ok := true, data := j }, 0, evs) ∧
      numRequests evs = k := by
  have hk2' : k ≤ 3 := by simpa [MAX_RETRIES] using hk2
  interval_cases k
  · have e1 := go_success outcomes 1 2 count s j ho hok
    norm_num at e1
    rw [postWithRetry, show MAX_RETRIES = 3 from rfl, e1]
    exact ⟨[Event.request], rfl, by simp [numRequests]⟩
  · have h1 := hprev 1 (by norm_num) (by norm_num)
    have e1 := go_continue outcomes 1 2 count (by decide) h1
    have e2 := go_success outcomes 2 1 (countAfterContinue (outcomes 1) count)
      s j ho hok
    norm_num at e1 e2
    rw [postWithRetry, show MAX_RETRIES = 3 from rfl, e1, e2]
    exact ⟨_, rfl, by simp [numRequests]⟩
  · have h1 := hprev 1 (by norm_num) (by norm_num)
    have h2 := hprev 2 (by norm_num) (by norm_num)
    have e1 := go_continue outcomes 1 2 count (by decide) h1
    have e2 := go_continue outcomes 2 1 (countAfterContinue (outcomes 1) count)
      (by decide) h2
    have e3 := go_success outcomes 3 0
      (countAfterContinue (outcomes 2) (countAfterContinue (outcomes 1) count))
      s j ho hok
    norm_num at e1 e2 e3
    rw [postWithRetry, show MAX_RETRIES = 3 from rfl, e1, e2, e3]
    exact ⟨_, rfl, by simp [numRequests]⟩

/-- Witness for the amended C2: a first-try ok response with JSON body `{}`
and counter 7 yields `Success({})`, counter 0, one request. -/
theorem success_resets_counter_and_stops_witness :
    ∃ evs, postWithRetry (fun _ => TryOutcome.response 200 (some (.obj []))) 7 =
      ({ ok := true, data := .obj [] }, 0, evs) ∧ numRequests evs = 1 :=
  success_resets_counter_and_stops
    (fun _ => TryOutcome.response 200 (some (.obj []))) 7 1
    (by norm_num) (by norm_num [MAX_RETRIES]) (by intro i h1 h2; omega)
    200 (.obj []) rfl rfl

/-- Counterexample to C2 as stated: every try receives an ok (200) response
whose body fails to parse; the claim demands `Success` with no data and a
counter reset, but the run returns a failure (after retrying) with the
counter ending at 1. -/
theorem ok_response_parse_failure_cex :
    respOk 200 = true ∧
    (postWithRetry (fun _ => TryOutcome.response 200 none) 0).1.ok = false ∧
    (postWithRetry (fun _ => TryOutcome.response 200 none) 0).2.1 = 1 :=
  ⟨rfl, rfl, rfl⟩

/-- C4 (amended): a response with a status in the non-retryable set
{400, 401, 403, 429} received on the FIRST attempt gives: exactly one
request, no retry wait, the counter incremented by exactly 1, and an
immediate non-retryable failure (trace ends with the non-retryable log).
When such a response arrives on a later attempt the cycle still ends
immediately with a single increment, but the earlier tries have already sent
requests and slept, which is what forces restricting the claimed
"exactly one request is sent in that cycle, no retry wait occurs" to the
first attempt. -/
theorem nonretryable_first_attempt (outcomes : Nat → TryOutcome)
    (count s : Nat) (body : Option JSValue)
    (ho : outcomes 1 = .response s body)
    (hnr : NON_RETRYABLE_STATUSES.contains s = true) :
    postWithRetry outcomes count =
      ({ ok := false }, count + 1, [Event.request, Event.logNonRetryable s]) := by
  have hmem : s ∈ NON_RETRYABLE_STATUSES := by simpa using hnr
  have hok : respOk s = false := by fin_cases hmem <;> rfl
  have e1 := go_nonretry outcomes 1 2 count s body ho hok hnr
  norm_num at e1
  rw [postWithRetry, show MAX_RETRIES = 3 from rfl, e1]

/-- Witness for the amended C4: a first-try 429 with counter 0 gives one
request, no sleep, counter 1, immediate failure. -/
theorem nonretryable_first_attempt_witness :
    postWithRetry (fun _ => TryOutcome.response 429 none) 0 =
      ({ ok := false }, 1, [Event.request, Event.logNonRetryable 429]) :=
  nonretryable_first_attempt (fun _ => TryOutcome.response 429 none) 0 429 none
    rfl rfl

/-- Counterexample to C4 as stated: a 400 received on the second attempt
(after a first-try network error).  The cycle sends two requests, a 2-second
retry wait occurs, so "exactly one request is sent in that cycle, no retry
wait occurs" fails for a non-retryable response received on an arbitrary
attempt. -/
theorem nonretryable_later_attempt_cex :
    postWithRetry
        (fun i => if i = 1 then TryOutcome.fetchError else .response 400 none) 0 =
      ({ ok := false }, 1,
        [Event.request, Event.logRetry 1, Event.sleep 2000,
         Event.request, Event.logNonRetryable 400]) ∧
    numRequests (postWithRetry
        (fun i => if i = 1 then TryOutcome.fetchError else .response 400 none)
        0).2.2 = 2 ∧
    (2 : Nat) ≠ 1 ∧
    Event.sleep 2000 ∈ (postWithRetry
        (fun i => if i = 1 then TryOutcome.fetchError else .response 400 none)
        0).2.2 :=
  ⟨rfl, rfl, by norm_num, by decide⟩

/-- Every delay computed by the adaptive scheduler is a finite number. -/
lemma nextMembersInterval_fin (res : SyncResult) :
    ∃ q : ℚ, nextMembersInterval res = .fin q := by
  simp only [nextMembersInterval]
  split
  · split
    · rename_i n heq
      cases n with
      | nan => exact ⟨DEFAULT_MEMBERS_INTERVAL, by simp [JSNum.gtZero]⟩
      | fin q =>
        by_cases hq : (0 : ℚ) < q
        · exact ⟨q * 1000, by simp [JSNum.gtZero, hq, JSNum.mul]⟩
        · exact ⟨DEFAULT_MEMBERS_INTERVAL, by simp [JSNum.gtZero, hq]⟩
    · exact ⟨DEFAULT_MEMBERS_INTERVAL, rfl⟩
  · exact ⟨DEFAULT_MEMBERS_INTERVAL, rfl⟩

/-- C6: for every completed members invocation, if the result is a success
whose data carries a `nextCheckInSeconds` field of JavaScript number type
with a strictly positive (finite) value `q`, the next timer is armed with
`q * 1000` ms; when the result is a failure, or whenever the field never
holds a strictly positive finite number (missing field, non-numeric value,
non-positive value — and NaN, handled separately in the never-NaN theorem),
the default 300000 ms (`DEFAULT_MEMBERS_INTERVAL`) is used. -/
theorem adaptive_next_interval (res : SyncResult) :
    (∀ q : ℚ, res.ok = true →
      res.data.getField "nextCheckInSeconds" = .num (.fin q) → 0 < q →
      nextMembersInterval res = .fin (q * 1000)) ∧
    ((res.ok = false ∨
        ∀ q : ℚ, res.data.getField "nextCheckInSeconds" = .num (.fin q) → q ≤ 0) →
      nextMembersInterval res = .fin DEFAULT_MEMBERS_INTERVAL) := by
  constructor
  · intro q hok hfield hq
    cases hdata : res.data
    case obj fields =>
      rw [hdata] at hfield
      simp [nextMembersInterval, hok, hdata, JSValue.truthy, hfield,
        JSNum.gtZero, hq, JSNum.mul]
    all_goals (rw [hdata] at hfield; simp [JSValue.getField] at hfield)
  · intro h
    rcases h with hok | hq
    · simp [nextMembersInterval, hok]
    · cases hok : res.ok
      · simp [nextMembersInterval, hok]
      · cases hdata : res.data
        case obj fields =>
          cases hf : JSValue.getField (.obj fields) "nextCheckInSeconds"
          case num n =>
            cases n with
            | nan =>
              simp [nextMembersInterval, hok, hdata, JSValue.truthy, hf,
                JSNum.gtZero]
            | fin q =>
              have hle := hq q (by rw [hdata]; exact hf)
              simp [nextMembersInterval, hok, hdata, JSValue.truthy, hf,
                JSNum.gtZero, not_lt.mpr hle]
          all_goals simp [nextMembersInterval, hok, hdata, JSValue.truthy, hf]
        all_goals simp [nextMembersInterval, hok, hdata, JSValue.truthy,
          JSValue.getField]

/-- Witness for C6: data `{nextCheckInSeconds: 42}` on success arms the timer
with 42000 ms; a failure outcome uses the default 300000 ms. -/
theorem adaptive_next_interval_witness :
    nextMembersInterval
        { ok := true, data := .obj [("nextCheckInSeconds", .num (.fin 42))] } =
      .fin 42000 ∧
    nextMembersInterval { ok := false } = .fin DEFAULT_MEMBERS_INTERVAL := by
  constructor
  · have h := (adaptive_next_interval
      { ok := true, data := .obj [("nextCheckInSeconds", .num (.fin 42))] }).1
      42 rfl rfl (by norm_num)
    rw [h]
    norm_num
  · exact (adaptive_next_interval { ok := false }).2 (Or.inl rfl)

/-- C10: a successful body carrying `nextCheckInSeconds = NaN` — which has
JavaScript type number, so the type guard does not reject it — still falls
back to the default 300000 ms, because the strictly-positive comparison is
false on NaN; more generally the computed timer delay is never NaN. -/
theorem adaptive_delay_never_nan :
    (∀ res : SyncResult, nextMembersInterval res ≠ JSNum.nan) ∧
    nextMembersInterval
        { ok := true, data := .obj [("nextCheckInSeconds", .num .nan)] } =
      .fin DEFAULT_MEMBERS_INTERVAL := by
  constructor
  · intro res
    obtain ⟨q, hq⟩ := nextMembersInterval_fin res
    rw [hq]
    simp
  · rfl

/-- Shared helper for C7/C8: when a required environment value is absent, the
startup checks exit with code 1 and the logged message names a value that is
indeed missing/empty (the first falsy one in source order). -/
lemma mainStartup_missing (c : Config)
    (h : c.cronSecret = none ∨ c.dashboardUrl = none ∨ c.membersUrl = none) :
    ∃ msg, mainStartup c = .exitedAtStartup 1 msg ∧
      ((msg = cronSecretMissingMsg ∧ envFalsy c.cronSecret = true) ∨
       (msg = dashboardUrlMissingMsg ∧ envFalsy c.dashboardUrl = true) ∨
       (msg = membersUrlMissingMsg ∧ envFalsy c.membersUrl = true)) := by
  by_cases h1 : envFalsy c.cronSecret = true
  · exact ⟨cronSecretMissingMsg, by simp [mainStartup, h1], Or.inl ⟨rfl, h1⟩⟩
  · by_cases h2 : envFalsy c.dashboardUrl = true
    · exact ⟨dashboardUrlMissingMsg, by simp [mainStartup, h1, h2],
        Or.inr (Or.inl ⟨rfl, h2⟩)⟩
    · have h3 : envFalsy c.membersUrl = true := by
        rcases h with hc | hd | hm
        · exact absurd (by rw [hc]; rfl) h1
        · exact absurd (by rw [hd]; rfl) h2
        · rw [hm]; rfl
      exact ⟨membersUrlMissingMsg, by simp [mainStartup, h1, h2, h3],
        Or.inr (Or.inr ⟨rfl, h3⟩)⟩

/-- C7: if any required configuration value (the auth secret or a target
URL) is absent at startup, the process logs a specific message naming a
missing value and exits with code 1, and the startup outcome is never the
`running` state — so no scheduler is armed and no network call happens. -/
theorem startup_failfast_on_missing_config (c : Config)
    (h : c.cronSecret = none ∨ c.dashboardUrl = none ∨ c.membersUrl = none) :
    ∃ msg, mainStartup c = .exitedAtStartup 1 msg ∧
      ((msg = cronSecretMissingMsg ∧ envFalsy c.cronSecret = true) ∨
       (msg = dashboardUrlMissingMsg ∧ envFalsy c.dashboardUrl = true) ∨
       (msg = membersUrlMissingMsg ∧ envFalsy c.membersUrl = true)) ∧
      ∀ a b : Bool, mainStartup c ≠ .running a b := by
  obtain ⟨msg, hm, hname⟩ := mainStartup_missing c h
  refine ⟨msg, hm, hname, ?_⟩
  intro a b hc
  rw [hm] at hc
  exact StartupOutcome.noConfusion hc

/-- Witness for C7: with only the secret missing, startup exits with code 1
logging the CRON_SECRET message, and the schedulers never start. -/
theorem startup_failfast_on_missing_config_witness :
    ∃ msg, mainStartup
        { cronSecret := none, dashboardUrl := some "u", membersUrl := some "m" } =
        .exitedAtStartup 1 msg ∧
      ((msg = cronSecretMissingMsg ∧
        envFalsy (Config.cronSecret
          { cronSecret := none, dashboardUrl := some "u",
            membersUrl := some "m" }) = true) ∨
       (msg = dashboardUrlMissingMsg ∧
        envFalsy (Config.dashboardUrl
          { cronSecret := none, dashboardUrl := some "u",
            membersUrl := some "m" }) = true) ∨
       (msg = membersUrlMissingMsg ∧
        envFalsy (Config.membersUrl
          { cronSecret := none, dashboardUrl := some "u",
            membersUrl := some "m" }) = true)) ∧
      ∀ a b : Bool, mainStartup
        { cronSecret := none, dashboardUrl := some "u", membersUrl := some "m" } ≠
        .running a b :=
  startup_failfast_on_missing_config
    { cronSecret := none, dashboardUrl := some "u", membersUrl := some "m" }
    (Or.inl rfl)

/-- C8: the process exit code is exactly 0 on signal-triggered graceful
shutdown — the handler logs the received signal and clears both scheduler
timers before exiting — and exactly 1 on missing configuration, an unhandled
promise rejection, or an uncaught exception. -/
theorem lifecycle_exit_codes (sig : String) (c : Config)
    (h : c.cronSecret = none ∨ c.dashboardUrl = none ∨ c.membersUrl = none) :
    shutdown sig =
      { loggedSignal := sig, clearedOrdersInterval := true,
        clearedMembersTimeout := true, exitCode := 0 } ∧
    unhandledRejectionExitCode = 1 ∧
    uncaughtExceptionExitCode = 1 ∧
    ∃ msg, mainStartup c = .exitedAtStartup 1 msg := by
  obtain ⟨msg, hm, _⟩ := mainStartup_missing c h
  exact ⟨rfl, rfl, rfl, msg, hm⟩

/-- Witness for C8 at SIGTERM and a configuration with everything missing. -/
theorem lifecycle_exit_codes_witness :
    shutdown "SIGTERM" =
      { loggedSignal := "SIGTERM", clearedOrdersInterval := true,
        clearedMembersTimeout := true, exitCode := 0 } ∧
    unhandledRejectionExitCode = 1 ∧
    uncaughtExceptionExitCode = 1 ∧
    ∃ msg, mainStartup
        { cronSecret := none, dashboardUrl := none, membersUrl := none } =
      .exitedAtStartup 1 msg :=
  lifecycle_exit_codes "SIGTERM"
    { cronSecret := none, dashboardUrl := none, membersUrl := none }
    (Or.inl rfl)

end AUESSync
